import Mathlib

/-!
Verification development for a small CalDAV bridge (`app.py`).

The bridge translates five calendar operations (discover principal, list
calendars, query events in a time range, create an event, delete an event)
into WebDAV/CalDAV requests against a remote server and translates the XML
multistatus answers back into simple structured results.

The shallow embedding below models:
* href resolution against the configured base authority;
* the principal-discovery chain (well-known path, base root, principal-URL
  fallback) with the server's per-request answers passed in as oracles;
* the calendar-listing namespace retry;
* the extraction of entries from multistatus responses, where each
  relevant `<response>` element is represented by the texts of the child
  elements the code looks up (`none` = element absent, `some t` = element
  present with text `t`, the empty string standing for a Python `None`
  text);
* the ICS event-document builder, the PUT request it feeds, and the
  status-code handling of create and delete.

Every upstream failure in the source is a FastAPI `HTTPException(status,
message)`; it is modelled by `HErr`.  String helpers (`pyStrip`,
`strUpper`, truthiness) mirror the Python operations on the ASCII inputs
the protocol uses.
-/

namespace CaldavBridge

/-- An `HTTPException(status_code, detail)` as raised throughout `app.py`. -/
structure HErr where
  status : Nat
  msg : String
deriving DecidableEq, Repr

/-- ASCII whitespace, the characters Python `str.strip()` removes on the
ASCII plane. -/
def isSpaceChar (c : Char) : Bool :=
  c = ' ' || c = '\t' || c = '\n' || c = '\r' || c = '\x0b' || c = '\x0c'

/-- `str.strip()` on a character list: drop leading and trailing whitespace. -/
def stripChars (l : List Char) : List Char :=
  ((l.dropWhile isSpaceChar).reverse.dropWhile isSpaceChar).reverse

/-- Python `s.strip()` (restricted to ASCII whitespace). -/
def pyStrip (s : String) : String := ⟨stripChars s.data⟩

/-- Python `text or reason`: the first string unless it is falsy (empty). -/
def pyOr (text reason : String) : String := if text = "" then reason else text

/-- Is the first list a prefix of the second?  (Python `startswith` on
character lists.) -/
def prefChars : List Char → List Char → Bool
  | [], _ => true
  | _ :: _, [] => false
  | p :: ps, c :: cs => p == c && prefChars ps cs

/-- Helper for `pyReplace`: replace every non-overlapping occurrence of
`pat` by `rep`, scanning left to right.  The explicit fuel (instantiated
with the list length) keeps the recursion structural. -/
def replCharsFuel (pat rep : List Char) : Nat → List Char → List Char
  | _, [] => []
  | 0, l => l
  | fuel+1, c :: cs =>
    if pat ≠ [] ∧ prefChars pat (c :: cs) then
      rep ++ replCharsFuel pat rep fuel ((c :: cs).drop pat.length)
    else c :: replCharsFuel pat rep fuel cs

/-- Python `s.replace(pat, rep)`: every non-overlapping occurrence of
`pat`, left to right. -/
def pyReplace (s pat rep : String) : String :=
  ⟨replCharsFuel pat.data rep.data s.data.length s.data⟩

/-- Python `s.startswith(p)`. -/
def startsWithStr (s p : String) : Bool := prefChars p.data s.data

/-- The check `href.startswith(('http:\x2f\x2f', 'https:\x2f\x2f'))` used at
`app.py` lines 171, 206, 246 and 265 to decide whether an href is already a
full URL. -/
def isAbsoluteUrl (s : String) : Bool :=
  startsWithStr s "http://" || startsWithStr s "https://"

/-- Href resolution as done inline at `app.py` lines 171, 206, 246, 265:
`url = h if h.startswith(('http:\x2f\x2f','https:\x2f\x2f')) else f"{BASE}{h}"`. -/
def resolveHref (base h : String) : String :=
  if isAbsoluteUrl h then h else base ++ h

/-! ### ICS document builder (`create`, app.py lines 224-244) -/

/-- `description.replace('\n', '\\n')` on the character list: every newline
becomes the two-character sequence backslash-`n`; all other characters are
kept unchanged. -/
def escN : List Char → List Char
  | [] => []
  | c :: cs => if c = '\n' then '\\' :: 'n' :: escN cs else c :: escN cs

/-- `(ev.description or '').replace('\n', '\\n')` (app.py line 226). -/
def escapeNewlines (s : String) : String := pyReplace s "\n" "\\n"

/-- Python `"\r\n".join(lines)` (app.py line 244). -/
def joinCRLF : List String → String
  | [] => ""
  | [l] => l
  | l :: l2 :: ls => l ++ "\r\n" ++ joinCRLF (l2 :: ls)

/-- The `lines` list of `create` (app.py lines 228-243).  `uid` is the
already-uppercased UID, `dtstamp` the formatted current UTC time. -/
def icsLines (summary dtstart dtend : String) (description : Option String)
    (uid dtstamp : String) : List String :=
  [ "BEGIN:VCALENDAR",
    "VERSION:2.0",
    "PRODID:-//Clockwork//Study//EN",
    "CALSCALE:GREGORIAN",
    "BEGIN:VEVENT",
    "UID:" ++ uid ++ "@clockwork",
    "DTSTAMP:" ++ dtstamp,
    "DTSTART:" ++ dtstart,
    "DTEND:" ++ dtend,
    "SUMMARY:" ++ summary,
    "DESCRIPTION:" ++ escapeNewlines (description.getD ""),
    "END:VEVENT",
    "END:VCALENDAR",
    "" ]

/-- `ics = "\r\n".join(lines)` — the generated event document
(app.py lines 228-244). -/
def buildIcs (summary dtstart dtend : String) (description : Option String)
    (uid dtstamp : String) : String :=
  joinCRLF (icsLines summary dtstart dtend description uid dtstamp)

/-- Python `s.upper()` restricted to ASCII (the source feeds it hex digits
or caller-supplied UIDs; `Char.toUpper` agrees with Python on ASCII). -/
def strUpper (s : String) : String := ⟨s.data.map Char.toUpper⟩

/-- The `CreateEvent` request schema (app.py lines 88-94). -/
structure CreateEvent where
  calendar_href : String
  summary : String
  dtstart_z : String
  dtend_z : String
  description : Option String
  uid : Option String
deriving DecidableEq

/-- `uid = (ev.uid or uuid.uuid4().hex).upper()` (app.py line 224);
`generatedHex` stands for the random `uuid4().hex` draw.  Python's `or` is
truthiness-based: a missing uid (`None`) and a supplied empty-string uid
are both falsy, so either way the generated hex is used. -/
def effectiveUid (supplied : Option String) (generatedHex : String) : String :=
  strUpper (pyOr (supplied.getD "") generatedHex)

/-- The PUT request issued by `create` (app.py lines 246-253): target URL,
`Content-Type` header, `If-None-Match` header and body. -/
structure PutRequest where
  url : String
  contentType : String
  ifNoneMatch : String
  body : String
deriving DecidableEq

/-- The PUT request `create` builds: `url = f"{calendar_url}{uid}.ics"` with
headers `Content-Type: text/calendar; charset=utf-8` and `If-None-Match: *`
and the generated ICS document as body (app.py lines 246-253). -/
def createPutRequest (base : String) (ev : CreateEvent)
    (generatedHex dtstamp : String) : PutRequest :=
  let uid := effectiveUid ev.uid generatedHex
  { url := resolveHref base ev.calendar_href ++ uid ++ ".ics"
    contentType := "text/calendar; charset=utf-8"
    ifNoneMatch := "*"
    body := buildIcs ev.summary ev.dtstart_z ev.dtend_z ev.description uid dtstamp }

/-- Modelled from the spec's words: the PUT target written in §4.4 as
`{resolvedCalendarHref}/{UID}.ics`, i.e. with a slash inserted between the
resolved calendar href and the filename.  Used only to compare the spec's
URL shape with the source's. -/
def createUrlSpec (base calHref uid : String) : String :=
  resolveHref base calHref ++ "/" ++ uid ++ ".ics"

/-- The JSON result of a successful `create` (app.py line 258). -/
structure CreateResult where
  uid : String
  href : String
deriving DecidableEq

/-- The response handling of `create` (app.py lines 256-258): success for
status 200/201/204 returning the uid and `f"{ev.calendar_href}{uid}.ics"`,
otherwise `HTTPException(r.status_code, r.text or r.reason)`. -/
def createHandleResponse (status : Nat) (text reason : String)
    (ev : CreateEvent) (generatedHex : String) : Except HErr CreateResult :=
  let uid := effectiveUid ev.uid generatedHex
  if status = 200 ∨ status = 201 ∨ status = 204 then
    .ok ⟨uid, ev.calendar_href ++ uid ++ ".ics"⟩
  else
    .error ⟨status, pyOr text reason⟩

/-- The response handling of `delete` (app.py lines 269-271): success for
status 200/202/204, otherwise `HTTPException(r.status_code, r.text or
r.reason)`. -/
def deleteHandleResponse (status : Nat) (text reason : String) :
    Except HErr Unit :=
  if status = 200 ∨ status = 202 ∨ status = 204 then .ok ()
  else .error ⟨status, pyOr text reason⟩

/-! ### Multistatus parsing (`calendars` lines 179-190, `events` lines 208-219) -/

/-- One `<d:response>` element as `calendars` sees it: the text of its
`d:href` child and of its (descendant) `d:displayname`, `none` when the
element is absent, `some ""` when present with a Python `None` text. -/
structure CalResponse where
  href : Option String
  displayname : Option String
deriving DecidableEq

/-- One item of the `calendars` listing (app.py line 189). -/
structure CalItem where
  href : String
  displayname : String
deriving DecidableEq

/-- The extraction loop of `calendars` (app.py lines 181-189): skip a
response when either element is missing, strip both texts, and append
whenever the stripped href is non-empty. -/
def calendarsParse : List CalResponse → List CalItem
  | [] => []
  | r :: rest =>
    match r.href, r.displayname with
    | some ht, some nt =>
      if pyStrip ht ≠ "" then ⟨pyStrip ht, pyStrip nt⟩ :: calendarsParse rest
      else calendarsParse rest
    | _, _ => calendarsParse rest

/-- One `<d:response>` element as `events` sees it: the text of its
`d:href` child and of its (descendant) `c:calendar-data`. -/
structure EvResponse where
  href : Option String
  calendar_data : Option String
deriving DecidableEq

/-- One item of the `events` result (app.py line 218). -/
structure EvItem where
  href : String
  ics : String
deriving DecidableEq

/-- The extraction loop of `events` (app.py lines 210-218): skip a response
when either element is missing, strip both texts, and append only when both
stripped texts are non-empty. -/
def eventsParse : List EvResponse → List EvItem
  | [] => []
  | r :: rest =>
    match r.href, r.calendar_data with
    | some ht, some dt =>
      if pyStrip ht ≠ "" ∧ pyStrip dt ≠ "" then
        ⟨pyStrip ht, pyStrip dt⟩ :: eventsParse rest
      else eventsParse rest
    | _, _ => eventsParse rest

/-! ### Principal discovery (`principal`, app.py lines 105-127) -/

/-- A parsed PROPFIND answer, reduced to the two element texts
`extract_principal_href` looks up: the text under
`current-user-principal/href` and under `principal-URL/href` (`none` =
element absent, `some ""` = present with a Python `None` text). -/
structure PropfindDoc where
  currentUserPrincipalHref : Option String
  principalUrlHref : Option String
deriving DecidableEq

/-- `find_text` (app.py lines 64-66): `None` when the element is absent or
its text is falsy, otherwise the stripped text. -/
def find_text (o : Option String) : Option String :=
  match o with
  | none => none
  | some t => if t = "" then none else some (pyStrip t)

/-- The candidate loop of `extract_principal_href` (app.py lines 71-79):
return the first truthy (non-empty) value among the candidates. -/
def firstTruthy : List (Option String) → Option String
  | [] => none
  | o :: rest =>
    match o with
    | some v => if v ≠ "" then some v else firstTruthy rest
    | none => firstTruthy rest

/-- `extract_principal_href` (app.py lines 68-80).  The four xpath
candidates collapse pairwise: the prefix-based and explicit-namespace forms
address the same elements of the parsed tree. -/
def extract_principal_href (d : PropfindDoc) : Option String :=
  firstTruthy
    [ find_text d.currentUserPrincipalHref,
      find_text d.principalUrlHref,
      find_text d.currentUserPrincipalHref,
      find_text d.principalUrlHref ]

/-- A PROPFIND issued during principal discovery, identified by the path it
targets and the property its body requests. -/
structure DavRequest where
  path : String
  prop : String
deriving DecidableEq

/-- Attempt 1: `current-user-principal` against `/.well-known/caldav`. -/
def wellKnownCupRequest : DavRequest := ⟨"/.well-known/caldav", "current-user-principal"⟩

/-- Attempt 2: `current-user-principal` against the base root `/`. -/
def rootCupRequest : DavRequest := ⟨"/", "current-user-principal"⟩

/-- Attempt 3: `principal-URL` against the base root `/`. -/
def rootPurlRequest : DavRequest := ⟨"/", "principal-URL"⟩

/-- `HTTPException(500, "Could not parse principal href")` (app.py line 127). -/
def principalFailure : HErr := ⟨500, "Could not parse principal href"⟩

/-- The `principal` route (app.py lines 105-127).  `r1, r2, r3` are the
server's answers to the three possible PROPFINDs (an `HErr` when `dav` or
XML parsing raises, otherwise the parsed document): try the well-known
path, then the base root, for `current-user-principal`; then the base root
for `principal-URL`; return the first extracted href, raise the discovery
failure only after all three parses yield none.  Also returns the list of
requests actually issued, in order. -/
def principalRun (r1 r2 r3 : Except HErr PropfindDoc) :
    Except HErr String × List DavRequest :=
  match r1 with
  | .error e => (.error e, [wellKnownCupRequest])
  | .ok d1 =>
    match extract_principal_href d1 with
    | some h => (.ok h, [wellKnownCupRequest])
    | none =>
      match r2 with
      | .error e => (.error e, [wellKnownCupRequest, rootCupRequest])
      | .ok d2 =>
        match extract_principal_href d2 with
        | some h => (.ok h, [wellKnownCupRequest, rootCupRequest])
        | none =>
          match r3 with
          | .error e => (.error e, [wellKnownCupRequest, rootCupRequest, rootPurlRequest])
          | .ok d3 =>
            match extract_principal_href d3 with
            | some h => (.ok h, [wellKnownCupRequest, rootCupRequest, rootPurlRequest])
            | none => (.error principalFailure,
                       [wellKnownCupRequest, rootCupRequest, rootPurlRequest])

/-! ### Calendar-listing namespace retry (`calendars`, app.py lines 159-177) -/

/-- The namespace string in the first request body (app.py line 160): a
duplicated `ietf:` segment. -/
def calendarNsTypo : String := "urn:ietf:ietf:params:xml:ns:caldav"

/-- The standard CalDAV namespace, substituted on retry (app.py line 169). -/
def calendarNsGood : String := "urn:ietf:params:xml:ns:caldav"

/-- The PROPFIND body of `calendars` (app.py lines 159-166), as a function
of the calendar namespace string spliced into `xmlns:C`. -/
def calendarsBodyWith (ns : String) : String :=
  "<?xml version=\"1.0\"?>\n<D:propfind xmlns:D=\"DAV:\" xmlns:C=\"" ++ ns ++
  "\">\n  <D:prop>\n    <D:displayname/>\n    <C:supported-calendar-component-set/>\n    <D:resourcetype/>\n  </D:prop>\n</D:propfind>"

/-- The literal `body` of `calendars`, carrying the typo'd namespace. -/
def calendarsBody : String := calendarsBodyWith calendarNsTypo

/-- `body.replace("urn:ietf:ietf:params:xml:ns:caldav", "urn:ietf:params:xml:ns:caldav")`
— the corrected body used by `do_list(False)` (app.py line 169). -/
def calendarsBodyFixed : String := pyReplace calendarsBody calendarNsTypo calendarNsGood

/-- The try/except of `calendars` (app.py lines 174-177): issue the PROPFIND
with the typo'd body; if it raises, issue it once more with the corrected
body and let that second outcome stand.  `fetch` is the server's answer as
a function of the request body; the returned list records the bodies sent,
in order. -/
def calendarsRun (fetch : String → Except HErr String) :
    Except HErr String × List String :=
  match fetch calendarsBody with
  | .ok s => (.ok s, [calendarsBody])
  | .error _ => (fetch calendarsBodyFixed, [calendarsBody, calendarsBodyFixed])

/-! ### Specification-side definitions

These definitions formalise wording of the specification (not source
code); they are compared against the source-derived definitions above. -/

/-- Helper for `noBareLF`: `prev` is the character preceding the current
position (so a linefeed is allowed exactly when `prev` is a carriage
return). -/
def noBareLFAux (prev : Char) : List Char → Bool
  | [] => true
  | c :: cs => (c != '\n' || prev == '\r') && noBareLFAux c cs

/-- No bare LF: every linefeed in the character list is immediately
preceded by a carriage return (a leading linefeed counts as bare). -/
def noBareLF (l : List Char) : Bool := noBareLFAux ' ' l

/-- Modelled from the claim's words (C4): the number of `<response>`
elements that contain both an href and a displayname. -/
def calendarsCountSpec (rs : List CalResponse) : Nat :=
  (rs.filter fun r => r.href.isSome && r.displayname.isSome).length

/-! ## Helper lemmas -/

theorem prefChars_append {p l : List Char} (h : prefChars p l = true)
    (r : List Char) : prefChars p (l ++ r) = true := by
  induction p generalizing l with
  | nil => simp [prefChars]
  | cons a as ih =>
    cases l with
    | nil => simp [prefChars] at h
    | cons c cs =>
      simp [prefChars] at h ⊢
      exact ⟨h.1, ih h.2 ⟩

theorem isAbsoluteUrl_append {base : String} (h : isAbsoluteUrl base = true)
    (t : String) : isAbsoluteUrl (base ++ t) = true := by
  unfold isAbsoluteUrl startsWithStr at h ⊢
  rw [String.data_append]
  rcases Bool.or_eq_true_iff.mp h with h1 | h1
  · exact Bool.or_eq_true_iff.mpr (Or.inl (prefChars_append h1 _))
  · exact Bool.or_eq_true_iff.mpr (Or.inr (prefChars_append h1 _))

theorem escN_flatMap (l : List Char) :
    escN l = l.flatMap (fun c => if c = '\n' then ['\\', 'n'] else [c]) := by
  induction l with
  | nil => rfl
  | cons c cs ih => by_cases hc : c = '\n' <;> simp [escN, hc, ih]

theorem escN_no_lf (l : List Char) : '\n' ∉ escN l := by
  rw [escN_flatMap]
  intro hmem
  rcases List.mem_flatMap.mp hmem with ⟨a, _, hfa⟩
  by_cases ha : a = '\n'
  · rw [if_pos ha] at hfa
    exact absurd hfa (by decide)
  · rw [if_neg ha] at hfa
    simp at hfa
    exact ha hfa.symm

theorem replCharsFuel_newline (fuel : Nat) :
    ∀ l : List Char, l.length ≤ fuel →
      replCharsFuel ['\n'] ['\\', 'n'] fuel l = escN l := by
  induction fuel with
  | zero =>
    intro l hl
    cases l with
    | nil => rfl
    | cons c cs => simp at hl
  | succ fuel ih =>
    intro l hl
    cases l with
    | nil => rfl
    | cons c cs =>
      by_cases hc : c = '\n'
      · subst hc
        have hcond : (['\n'] ≠ ([] : List Char) ∧
            prefChars ['\n'] ('\n' :: cs) = true) := by
          exact ⟨by simp, by simp [prefChars]⟩
        simp only [replCharsFuel, if_pos hcond]
        have hdrop : ('\n' :: cs).drop (['\n'] : List Char).length = cs := rfl
        rw [hdrop, ih cs (by simpa using Nat.le_of_succ_le_succ hl)]
        simp [escN]
      · have hcond : ¬(['\n'] ≠ ([] : List Char) ∧
            prefChars ['\n'] (c :: cs) = true) := by
          simp [prefChars]
          intro he
          exact absurd he.symm hc
        simp only [replCharsFuel, if_neg hcond]
        rw [ih cs (by simpa using Nat.le_of_succ_le_succ hl)]
        simp [escN, hc]

theorem escapeNewlines_eq (s : String) : escapeNewlines s = ⟨escN s.data⟩ := by
  unfold escapeNewlines pyReplace
  exact congrArg String.mk (replCharsFuel_newline s.data.length s.data le_rfl)

theorem escapeNewlines_data (s : String) :
    (escapeNewlines s).data = escN s.data := by
  rw [escapeNewlines_eq]

theorem no_lf_append {a b : String} (ha : '\n' ∉ a.data) (hb : '\n' ∉ b.data) :
    '\n' ∉ (a ++ b).data := by
  rw [String.data_append]
  simp [List.mem_append]
  exact ⟨fun h => ha h, fun h => hb h⟩

theorem noBareLFAux_of_no_lf {l : List Char} (h : '\n' ∉ l) :
    ∀ prev, noBareLFAux prev l = true := by
  induction l with
  | nil => intro prev; rfl
  | cons c cs ih =>
    intro prev
    simp [List.mem_cons] at h
    have hc : (c != '\n') = true := by
      simp [bne_iff_ne]
      exact fun e => h.1 e.symm
    simp [noBareLFAux, hc, ih h.2]

theorem noBareLFAux_append_crlf {l : List Char} (h : '\n' ∉ l) :
    ∀ (prev : Char) (r : List Char),
      noBareLFAux prev (l ++ '\r' :: '\n' :: r) = noBareLFAux '\n' r := by
  induction l with
  | nil =>
    intro prev r
    simp [noBareLFAux]
  | cons c cs ih =>
    intro prev r
    simp [List.mem_cons] at h
    have hc : (c != '\n') = true := by
      simp [bne_iff_ne]
      exact fun e => h.1 e.symm
    simp [noBareLFAux, hc, ih h.2]

theorem joinCRLF_no_bare_lf :
    ∀ lines : List String, (∀ l ∈ lines, '\n' ∉ l.data) →
      ∀ prev, noBareLFAux prev (joinCRLF lines).data = true
  | [], _, prev => rfl
  | [l], h, prev => noBareLFAux_of_no_lf (h l (by simp)) prev
  | l :: l2 :: ls, h, prev => by
    have hdata : (joinCRLF (l :: l2 :: ls)).data =
        l.data ++ '\r' :: '\n' :: (joinCRLF (l2 :: ls)).data := by
      show (l ++ "\r\n" ++ joinCRLF (l2 :: ls)).data = _
      rw [String.data_append, String.data_append, List.append_assoc]
      rfl
    rw [hdata, noBareLFAux_append_crlf (h l (by simp))]
    exact joinCRLF_no_bare_lf (l2 :: ls) (fun x hx => h x (by simp [hx])) '\n'

/-! ## Claim theorems -/

set_option maxRecDepth 10000

/-- C3: href resolution is idempotent — `resolve (resolve h) = resolve h`
for every href `h` (given that the configured base authority is itself an
absolute URL, as the default `BASE_URL` is); an href that already begins
with a scheme and authority is returned unchanged, and otherwise the base
authority is prefixed exactly once. -/
theorem href_resolution_idempotent_c3 (base h : String)
    (hb : isAbsoluteUrl base = true) :
    resolveHref base (resolveHref base h) = resolveHref base h ∧
    (isAbsoluteUrl h = true → resolveHref base h = h) ∧
    (isAbsoluteUrl h = false → resolveHref base h = base ++ h) := by
  by_cases hh : isAbsoluteUrl h = true
  · refine ⟨?_, fun _ => ?_, fun hf => ?_⟩
    · simp [resolveHref, hh]
    · simp [resolveHref, hh]
    · rw [hh] at hf; cases hf
  · have hh' : isAbsoluteUrl h = false := by
      cases hx : isAbsoluteUrl h
      · rfl
      · exact absurd hx hh
    refine ⟨?_, fun ht => absurd ht hh, fun _ => by simp [resolveHref, hh']⟩
    simp [resolveHref, hh', isAbsoluteUrl_append hb]

/-- Witness for C3 at the default base URL and a relative principal href. -/
theorem href_resolution_idempotent_c3_witness :
    resolveHref "https://caldav.icloud.com"
        (resolveHref "https://caldav.icloud.com" "/123/principal/") =
      resolveHref "https://caldav.icloud.com" "/123/principal/" ∧
    (isAbsoluteUrl "/123/principal/" = true →
      resolveHref "https://caldav.icloud.com" "/123/principal/" =
        "/123/principal/") ∧
    (isAbsoluteUrl "/123/principal/" = false →
      resolveHref "https://caldav.icloud.com" "/123/principal/" =
        "https://caldav.icloud.com" ++ "/123/principal/") :=
  href_resolution_idempotent_c3 "https://caldav.icloud.com" "/123/principal/"
    (by decide)

/-- C7: the generated document's DESCRIPTION line applies the newline
escaping to the description; the escaping maps each newline character to
the two-character sequence backslash-`n` and every other character
(commas and semicolons included) to itself, and the escaped text contains
no literal line break. -/
theorem description_newline_escape_c7
    (summary dtstart dtend uid dtstamp s : String) :
    (icsLines summary dtstart dtend (some s) uid dtstamp).get? 10 =
      some ("DESCRIPTION:" ++ escapeNewlines s) ∧
    (escapeNewlines s).data =
      s.data.flatMap (fun c => if c = '\n' then ['\\', 'n'] else [c]) ∧
    '\n' ∉ (escapeNewlines s).data := by
  refine ⟨rfl, ?_, ?_⟩
  · rw [escapeNewlines_data]; exact escN_flatMap s.data
  · rw [escapeNewlines_data]; exact escN_no_lf s.data

/-- C5: the event query includes one `(href, ics)` pair per `<response>`
element whose href and calendar-data are both present with non-empty
(trimmed) text, in document order; responses missing either value are
silently dropped. -/
theorem events_query_pairs_c5 (rs : List EvResponse) :
    eventsParse rs =
      (rs.filter fun r =>
        (pyStrip (r.href.getD "") != "") &&
        (pyStrip (r.calendar_data.getD "") != "")).map
        (fun r => ⟨pyStrip (r.href.getD ""), pyStrip (r.calendar_data.getD "")⟩) := by
  induction rs with
  | nil => rfl
  | cons r rest ih =>
    rcases r with ⟨oh, od⟩
    rcases oh with _ | ht <;> rcases od with _ | dt
    · simp [eventsParse, List.filter_cons, ih,
        show (pyStrip "" != "") = false from rfl]
    · simp [eventsParse, List.filter_cons, ih,
        show (pyStrip "" != "") = false from rfl]
    · simp [eventsParse, List.filter_cons, ih,
        show (pyStrip "" != "") = false from rfl]
    · by_cases h1 : pyStrip ht = "" <;> by_cases h2 : pyStrip dt = "" <;>
        simp [eventsParse, List.filter_cons, ih, h1, h2]

/-- C4 counterexample: a `<response>` with an href element whose text is
empty and a displayname element is counted by the claim (it contains both
an href and a displayname) but skipped by the code, so the listing does
not return one entry per response containing both. -/
theorem calendars_listing_c4_counterexample :
    calendarsParse [⟨some "", some "Work"⟩] = [] ∧
    calendarsCountSpec [⟨some "", some "Work"⟩] = 1 := by
  exact ⟨by decide, by decide⟩

/-- C4 amended: calendar listing returns exactly one entry, in document
order, per `<response>` element that has both an href element and a
displayname element and whose trimmed href text is non-empty; the trimmed
displayname may be empty and is kept as the entry's name. -/
theorem calendars_listing_c4_amended (rs : List CalResponse) :
    calendarsParse rs =
      (rs.filter fun r => r.href.isSome && r.displayname.isSome &&
        (pyStrip (r.href.getD "") != "")).map
        (fun r => ⟨pyStrip (r.href.getD ""), pyStrip (r.displayname.getD "")⟩) := by
  induction rs with
  | nil => rfl
  | cons r rest ih =>
    rcases r with ⟨oh, odn⟩
    rcases oh with _ | ht <;> rcases odn with _ | nt
    · simp [calendarsParse, List.filter_cons, ih]
    · simp [calendarsParse, List.filter_cons, ih]
    · simp [calendarsParse, List.filter_cons, ih]
    · by_cases h1 : pyStrip ht = "" <;>
        simp [calendarsParse, List.filter_cons, ih, h1]

/-- C9: event deletion succeeds exactly for the statuses 200, 202 and 204;
every other status yields an upstream error carrying the server's status
and its body text (the reason phrase standing in only for an empty body). -/
theorem delete_status_c9 (status : Nat) (text reason : String) :
    (deleteHandleResponse status text reason = .ok () ↔
      (status = 200 ∨ status = 202 ∨ status = 204)) ∧
    (¬(status = 200 ∨ status = 202 ∨ status = 204) →
      deleteHandleResponse status text reason =
        .error ⟨status, pyOr text reason⟩) ∧
    (text ≠ "" → pyOr text reason = text) := by
  refine ⟨⟨?_, ?_⟩, fun hs => ?_, fun ht => ?_⟩
  · intro hok
    by_contra hs
    unfold deleteHandleResponse at hok
    rw [if_neg hs] at hok
    cases hok
  · intro hs
    unfold deleteHandleResponse
    rw [if_pos hs]
  · unfold deleteHandleResponse
    rw [if_neg hs]
  · unfold pyOr
    rw [if_neg ht]

/-- Witness for C9: deleting an event the server answers with 404 surfaces
an upstream error with status 404 and the server's body, not a success. -/
theorem delete_status_c9_witness :
    deleteHandleResponse 404 "event not found" "Not Found" =
      .error ⟨404, "event not found"⟩ := by
  have h := (delete_status_c9 404 "event not found" "Not Found").2.1 (by decide)
  rw [show pyOr "event not found" "Not Found" = "event not found" from by decide] at h
  exact h

/-- C8 counterexample: summaries are copied into the document verbatim, so
a summary containing a raw newline produces a document with a bare LF —
the claim's "every line is terminated with CRLF (never a bare LF)" fails
as stated over all inputs. -/
theorem event_document_c8_counterexample :
    noBareLF (buildIcs "a\nb" "20250101T090000Z" "20250101T093000Z" none
      "ABC" "20250102T000000Z").data = false := by decide

/-- C8 amended: the generated document is the property lines joined with
CRLF and is CRLF-terminated; provided summary, start, end, UID and
timestamp contain no raw newline (the description may — its newlines are
escaped), the document contains no bare LF; and generation is a
deterministic function of its six inputs. -/
theorem event_document_c8_amended (summary dtstart dtend : String)
    (description : Option String) (uid dtstamp : String) :
    buildIcs summary dtstart dtend description uid dtstamp =
      joinCRLF ((icsLines summary dtstart dtend description uid dtstamp).dropLast) ++
        "\r\n" ∧
    ('\n' ∉ summary.data → '\n' ∉ dtstart.data → '\n' ∉ dtend.data →
      '\n' ∉ uid.data → '\n' ∉ dtstamp.data →
      noBareLF (buildIcs summary dtstart dtend description uid dtstamp).data =
        true) ∧
    (∀ summary2 dtstart2 dtend2 description2 uid2 dtstamp2,
      summary = summary2 → dtstart = dtstart2 → dtend = dtend2 →
      description = description2 → uid = uid2 → dtstamp = dtstamp2 →
      buildIcs summary dtstart dtend description uid dtstamp =
        buildIcs summary2 dtstart2 dtend2 description2 uid2 dtstamp2) := by
  refine ⟨?_, ?_, ?_⟩
  · apply String.ext
    simp [buildIcs, icsLines, joinCRLF, List.dropLast, String.data_append,
      List.append_assoc, List.append_nil,
      show ("" : String).data = [] from rfl]
  · intro h1 h2 h3 h4 h5
    unfold noBareLF buildIcs
    apply joinCRLF_no_bare_lf
    intro l hl
    simp [icsLines] at hl
    rcases hl with rfl | rfl | rfl | rfl | rfl | rfl | rfl | rfl | rfl | rfl |
      rfl | rfl | rfl | rfl
    · decide
    · decide
    · decide
    · decide
    · decide
    · exact no_lf_append (no_lf_append (by decide) h4) (by decide)
    · exact no_lf_append (by decide) h5
    · exact no_lf_append (by decide) h2
    · exact no_lf_append (by decide) h3
    · exact no_lf_append (by decide) h1
    · exact no_lf_append (by decide)
        (by rw [escapeNewlines_data]; exact escN_no_lf _)
    · decide
    · decide
    · decide
  · intro s2 a2 b2 d2 u2 t2 e1 e2 e3 e4 e5 e6
    subst e1; subst e2; subst e3; subst e4; subst e5; subst e6; rfl

/-- Witness for C8 on newline-free fields and a description with an
embedded newline. -/
theorem event_document_c8_witness :
    noBareLF (buildIcs "Standup" "20250101T090000Z" "20250101T093000Z"
      (some "line1\nline2") "ABC" "20250102T000000Z").data = true := by
  have h := (event_document_c8_amended "Standup" "20250101T090000Z"
    "20250101T093000Z" (some "line1\nline2") "ABC" "20250102T000000Z").2.1
  exact h (by decide) (by decide) (by decide) (by decide) (by decide)

/-- C2 counterexample: the code builds the PUT URL by direct string
concatenation, so for a calendar href without a trailing slash the target
differs from the spec's `{resolvedCalendarHref}/{UID}.ics` shape. -/
theorem event_create_c2_counterexample :
    (createPutRequest "https://caldav.icloud.com"
        ⟨"/cal", "S", "20250101T090000Z", "20250101T093000Z", none, some "ABC"⟩
        "ffff" "20250102T000000Z").url ≠
      createUrlSpec "https://caldav.icloud.com" "/cal" "ABC" := by decide

/-- C2 amended: the PUT target is the resolved calendar href directly
concatenated with the uppercased UID and `.ics` (no slash inserted — equal
to the spec's written form exactly when the href ends with a slash); the
request carries the `If-None-Match: *` conditional-create precondition,
the calendar content type, and the generated document; statuses 200, 201
and 204 succeed returning the UID, and every other status surfaces an
upstream error with the server's status and body text. -/
theorem event_create_c2_amended (base : String) (ev : CreateEvent)
    (generatedHex dtstamp : String) (status : Nat) (text reason : String) :
    (createPutRequest base ev generatedHex dtstamp).url =
      resolveHref base ev.calendar_href ++ effectiveUid ev.uid generatedHex ++
        ".ics" ∧
    (createPutRequest base ev generatedHex dtstamp).ifNoneMatch = "*" ∧
    (createPutRequest base ev generatedHex dtstamp).contentType =
      "text/calendar; charset=utf-8" ∧
    (createPutRequest base ev generatedHex dtstamp).body =
      buildIcs ev.summary ev.dtstart_z ev.dtend_z ev.description
        (effectiveUid ev.uid generatedHex) dtstamp ∧
    ((status = 200 ∨ status = 201 ∨ status = 204) →
      createHandleResponse status text reason ev generatedHex =
        .ok ⟨effectiveUid ev.uid generatedHex,
             ev.calendar_href ++ effectiveUid ev.uid generatedHex ++ ".ics"⟩) ∧
    (¬(status = 200 ∨ status = 201 ∨ status = 204) →
      createHandleResponse status text reason ev generatedHex =
        .error ⟨status, pyOr text reason⟩) ∧
    (text ≠ "" → pyOr text reason = text) := by
  refine ⟨rfl, rfl, rfl, rfl, fun hs => ?_, fun hs => ?_, fun ht => ?_⟩
  · simp only [createHandleResponse]
    rw [if_pos hs]
  · simp only [createHandleResponse]
    rw [if_neg hs]
  · unfold pyOr
    rw [if_neg ht]

/-- Witness for C2: a 201 answer to the scenario-C create (no UID
supplied, generated hex `00c0ffee`) succeeds and returns the uppercased
generated UID and its href. -/
theorem event_create_c2_witness :
    createHandleResponse 201 "" "Created"
        ⟨"/123/calendars/work/", "Standup", "20250101T090000Z",
         "20250101T093000Z", none, none⟩ "00c0ffee" =
      .ok ⟨"00C0FFEE", "/123/calendars/work/00C0FFEE.ics"⟩ := by
  have h := (event_create_c2_amended "https://caldav.icloud.com"
    ⟨"/123/calendars/work/", "Standup", "20250101T090000Z",
     "20250101T093000Z", none, none⟩ "00c0ffee" "20250102T000000Z"
    201 "" "Created").2.2.2.2.1 (Or.inr (Or.inl rfl))
  rw [show effectiveUid none "00c0ffee" = "00C0FFEE" from by decide] at h
  rw [show ("/123/calendars/work/" ++ "00C0FFEE" ++ ".ics" : String) =
    "/123/calendars/work/00C0FFEE.ics" from by decide] at h
  exact h

/-- C10 counterexample: a supplied empty-string uid is falsy in
`ev.uid or uuid.uuid4().hex`, so the code uses the freshly generated hex —
the supplied uid is not "normalized to uppercase before use" as the claim
asserts for every supplied uid. -/
theorem uid_uppercase_c10_counterexample :
    effectiveUid (some "") "00c0ffee" = "00C0FFEE" ∧
    effectiveUid (some "") "00c0ffee" ≠ strUpper "" := by
  exact ⟨by decide, by decide⟩

/-- C10 amended: a caller-supplied non-empty uid is uppercased before
use — the document's UID line is the uppercased uid suffixed with
`@clockwork`, the PUT target filename stem and the returned href use the
uppercased uid, and creates with uid `abc` and uid `ABC` issue identical
PUT requests; a supplied empty uid is falsy, so the generated hex is used
instead (uppercased). -/
theorem uid_uppercase_c10_amended (base summary dtstart dtend : String)
    (description : Option String) (calHref s generatedHex dtstamp : String)
    (hs : s ≠ "") :
    effectiveUid (some s) generatedHex = strUpper s ∧
    (icsLines summary dtstart dtend description
        (effectiveUid (some s) generatedHex) dtstamp).get? 5 =
      some ("UID:" ++ strUpper s ++ "@clockwork") ∧
    (createPutRequest base ⟨calHref, summary, dtstart, dtend, description, some s⟩
        generatedHex dtstamp).url =
      resolveHref base calHref ++ strUpper s ++ ".ics" ∧
    (∀ status text reason, (status = 200 ∨ status = 201 ∨ status = 204) →
      createHandleResponse status text reason
          ⟨calHref, summary, dtstart, dtend, description, some s⟩ generatedHex =
        .ok ⟨strUpper s, calHref ++ strUpper s ++ ".ics"⟩) ∧
    createPutRequest base
        ⟨calHref, summary, dtstart, dtend, description, some "abc"⟩
        generatedHex dtstamp =
      createPutRequest base
        ⟨calHref, summary, dtstart, dtend, description, some "ABC"⟩
        generatedHex dtstamp ∧
    effectiveUid (some "") generatedHex = strUpper generatedHex := by
  have h1 : effectiveUid (some s) generatedHex = strUpper s := by
    simp [effectiveUid, pyOr, hs]
  refine ⟨h1, ?_, ?_, fun status text reason hst => ?_, ?_, ?_⟩
  · rw [h1]; rfl
  · simp [createPutRequest, h1]
  · simp only [createHandleResponse]
    rw [if_pos hst, h1]
  · have e1 : ∀ g : String, pyOr "abc" g = "abc" := fun g => by
      unfold pyOr; rw [if_neg (by decide)]
    have e2 : ∀ g : String, pyOr "ABC" g = "ABC" := fun g => by
      unfold pyOr; rw [if_neg (by decide)]
    simp [createPutRequest, effectiveUid, e1, e2,
      show strUpper "abc" = strUpper "ABC" from by decide]
  · simp [effectiveUid, pyOr]

/-- Witness for C10: a 204 answer to a create with supplied uid `abc`
succeeds with uid `ABC` and href `/123/calendars/work/ABC.ics`. -/
theorem uid_uppercase_c10_amended_witness :
    createHandleResponse 204 "" "No Content"
        ⟨"/123/calendars/work/", "Standup", "20250101T090000Z",
         "20250101T093000Z", none, some "abc"⟩ "ffffffff" =
      .ok ⟨"ABC", "/123/calendars/work/ABC.ics"⟩ := by
  have h := (uid_uppercase_c10_amended "https://caldav.icloud.com" "Standup"
    "20250101T090000Z" "20250101T093000Z" none "/123/calendars/work/" "abc"
    "ffffffff" "20250102T000000Z" (by decide)).2.2.2.1 204 "" "No Content"
    (Or.inr (Or.inr rfl))
  rw [show strUpper "abc" = "ABC" from by decide] at h
  rw [show ("/123/calendars/work/" ++ "ABC" ++ ".ics" : String) =
    "/123/calendars/work/ABC.ics" from by decide] at h
  exact h

/-- C6: calendar listing first sends the PROPFIND body carrying the typo'd
calendar namespace string; if and only if that request fails it retries
exactly once with the body carrying the corrected namespace string, whose
outcome then stands — never a third attempt. -/
theorem calendars_namespace_retry_c6 (fetch : String → Except HErr String) :
    (calendarsRun fetch).2.length ≤ 2 ∧
    (calendarsRun fetch).2.head? = some calendarsBody ∧
    calendarsBody = calendarsBodyWith calendarNsTypo ∧
    calendarsBodyFixed = calendarsBodyWith calendarNsGood ∧
    (∀ s, fetch calendarsBody = .ok s →
      calendarsRun fetch = (.ok s, [calendarsBody])) ∧
    (∀ e, fetch calendarsBody = .error e →
      calendarsRun fetch =
        (fetch calendarsBodyFixed, [calendarsBody, calendarsBodyFixed])) := by
  refine ⟨?_, ?_, rfl, by decide, fun s hs => ?_, fun e he => ?_⟩
  · cases hf : fetch calendarsBody <;> simp [calendarsRun, hf]
  · cases hf : fetch calendarsBody <;> simp [calendarsRun, hf]
  · simp [calendarsRun, hs]
  · simp [calendarsRun, he]

/-- Witness for C6: a server rejecting both bodies gets exactly the two
attempts, and the second failure is surfaced. -/
theorem calendars_namespace_retry_c6_witness :
    calendarsRun (fun _ => .error ⟨400, "bad namespace"⟩) =
      (.error ⟨400, "bad namespace"⟩, [calendarsBody, calendarsBodyFixed]) := by
  have h := (calendars_namespace_retry_c6
    (fun _ => .error ⟨400, "bad namespace"⟩)).2.2.2.2.2 ⟨400, "bad namespace"⟩ rfl
  exact h

/-- C1: principal discovery issues up to three PROPFINDs in order —
`current-user-principal` against the well-known caldav path, the same
against the base root, then `principal-URL` against the base root — stops
at the first attempt whose answer yields a principal href, and raises the
principal-discovery error exactly when all three attempts parse but yield
no href (upstream failures surface as themselves, assumed distinct from
the locally raised discovery error). -/
theorem principal_discovery_c1 (r1 r2 r3 : Except HErr PropfindDoc) :
    (∀ d1 h, r1 = .ok d1 → extract_principal_href d1 = some h →
      principalRun r1 r2 r3 = (.ok h, [wellKnownCupRequest])) ∧
    (∀ d1 d2 h, r1 = .ok d1 → extract_principal_href d1 = none →
      r2 = .ok d2 → extract_principal_href d2 = some h →
      principalRun r1 r2 r3 = (.ok h, [wellKnownCupRequest, rootCupRequest])) ∧
    (∀ d1 d2 d3 h, r1 = .ok d1 → extract_principal_href d1 = none →
      r2 = .ok d2 → extract_principal_href d2 = none →
      r3 = .ok d3 → extract_principal_href d3 = some h →
      principalRun r1 r2 r3 =
        (.ok h, [wellKnownCupRequest, rootCupRequest, rootPurlRequest])) ∧
    (∀ d1 d2 d3, r1 = .ok d1 → extract_principal_href d1 = none →
      r2 = .ok d2 → extract_principal_href d2 = none →
      r3 = .ok d3 → extract_principal_href d3 = none →
      principalRun r1 r2 r3 =
        (.error principalFailure,
         [wellKnownCupRequest, rootCupRequest, rootPurlRequest])) ∧
    (r1 ≠ .error principalFailure → r2 ≠ .error principalFailure →
      r3 ≠ .error principalFailure →
      ((principalRun r1 r2 r3).1 = .error principalFailure ↔
        ∃ d1 d2 d3, r1 = .ok d1 ∧ extract_principal_href d1 = none ∧
          r2 = .ok d2 ∧ extract_principal_href d2 = none ∧
          r3 = .ok d3 ∧ extract_principal_href d3 = none)) := by
  refine ⟨?_, ?_, ?_, ?_, ?_⟩
  · rintro d1 h hq he
    subst hq
    simp [principalRun, he]
  · rintro d1 d2 h hq1 he1 hq2 he2
    subst hq1; subst hq2
    simp [principalRun, he1, he2]
  · rintro d1 d2 d3 h hq1 he1 hq2 he2 hq3 he3
    subst hq1; subst hq2; subst hq3
    simp [principalRun, he1, he2, he3]
  · rintro d1 d2 d3 hq1 he1 hq2 he2 hq3 he3
    subst hq1; subst hq2; subst hq3
    simp [principalRun, he1, he2, he3]
  · intro hn1 hn2 hn3
    rcases r1 with e1 | d1
    · have hne : e1 ≠ principalFailure := fun hx => hn1 (by rw [hx])
      simp [principalRun, hne]
    · rcases hx1 : extract_principal_href d1 with _ | h1
      · rcases r2 with e2 | d2
        · have hne : e2 ≠ principalFailure := fun hx => hn2 (by rw [hx])
          simp [principalRun, hx1, hne]
        · rcases hx2 : extract_principal_href d2 with _ | h2
          · rcases r3 with e3 | d3
            · have hne : e3 ≠ principalFailure := fun hx => hn3 (by rw [hx])
              simp [principalRun, hx1, hx2, hne]
            · rcases hx3 : extract_principal_href d3 with _ | h3
              · simp [principalRun, hx1, hx2, hx3]
              · simp [principalRun, hx1, hx2, hx3]
          · simp [principalRun, hx1, hx2]
      · simp [principalRun, hx1]

/-- Witness for C1: first two answers parse but yield no truthy href (the
second has a whitespace-only text), the third yields one via
`principal-URL`; all three requests are issued and the href is returned. -/
theorem principal_discovery_c1_witness :
    principalRun (.ok ⟨none, none⟩) (.ok ⟨some "  ", none⟩)
        (.ok ⟨none, some "/123/principal/"⟩) =
      (.ok "/123/principal/",
       [wellKnownCupRequest, rootCupRequest, rootPurlRequest]) := by
  have h := (principal_discovery_c1 (.ok ⟨none, none⟩) (.ok ⟨some "  ", none⟩)
    (.ok ⟨none, some "/123/principal/"⟩)).2.2.1 ⟨none, none⟩ ⟨some "  ", none⟩
    ⟨none, some "/123/principal/"⟩ "/123/principal/" rfl (by decide) rfl
    (by decide) rfl (by decide)
  exact h

end CaldavBridge
